import Mathlib

/-!
Shallow embedding of the `auto_move` plugin (src/auto_move/auto_move.py).

The plugin persists four category ids in a per-plugin key/value store
(`get_config` / `set_config` / `ensure_config_keys`), scans a thread's
message history for an embed carrying the staff colour
(`has_mod_replied`), decides on each reply event whether to relocate the
thread channel (`on_thread_reply`) and performs the relocation guarded
by existence and a current-category check (`move_channel`).

Modelling conventions:
* A stored configuration value is either Python `None` (modelled `none`)
  or the decimal string `str(n)` of an integer category id (modelled
  `some n`).  Such a string is never empty, so its Python truthiness
  coincides with `Option.isSome`, and `int(value)` recovers `n`.
* A raised-and-propagated Python exception is modelled by an `Option`
  result of `none`: `int(None)` raises `TypeError` in `move_channel`,
  and `embed.color.value` raises `AttributeError` in `has_mod_replied`
  when the embed has no colour (`embed.color` is `None`).
* The exception swallowed by the `try/except` around `channel.edit` is
  modelled as the `MoveOutcome.failedCaught` outcome together with the
  count of `channel.edit` attempts, so containment and absence of a
  retry are visible in the result.
-/

namespace AutoMove

/-- An embed attached to a chat message.  The host API makes the embed
colour optional: `color = none` models a Python embed whose `color`
attribute is `None`, on which the source expression `embed.color.value`
raises `AttributeError`. -/
structure Embed where
  color : Option Nat
  deriving DecidableEq

/-- A message in a thread channel's history; the source scan only reads
`message.embeds`. -/
structure Message where
  embeds : List Embed
  deriving DecidableEq

/-- The plugin's partitioned store: a list of documents, each a pair of
the `_id` key and the `value` field. -/
abbrev Store := List (String × Option Int)

/-- The store key `waiting_user_message_category_id`. -/
def waitingUserKey : String := "waiting_user_message_category_id"

/-- The store key `waiting_staff_message_category_id`. -/
def waitingStaffKey : String := "waiting_staff_message_category_id"

/-- The store key `closing_category_id`. -/
def closingKey : String := "closing_category_id"

/-- The store key `recruitment_id`. -/
def recruitmentKey : String := "recruitment_id"

/-- Embedding of `get_config`: `find_one` on `_id = key`, returning the
document's `value` field when a document exists and `None` otherwise. -/
def get_config : Store → String → Option Int
  | [], _ => none
  | p :: rest, k => if p.1 = k then p.2 else get_config rest k

/-- Embedding of `set_config`: `find_one_and_update` with `upsert=True`
on the unique `_id = key` document — replace the value in place when the
document exists, append a new document otherwise. -/
def set_config : Store → String → Option Int → Store
  | [], k, v => [(k, v)]
  | p :: rest, k, v => if p.1 = k then (k, v) :: rest else p :: set_config rest k v

/-- Whether a document with the given `_id` exists in the store. -/
def hasKey : Store → String → Bool
  | [], _ => false
  | p :: rest, k => (p.1 == k) || hasKey rest k

/-- The `default_keys` dictionary of `ensure_config_keys`: every default
value is Python `None`. -/
def default_keys : List (String × Option Int) :=
  [(waitingUserKey, none), (waitingStaffKey, none), (closingKey, none), (recruitmentKey, none)]

/-- One iteration of the `ensure_config_keys` loop body: set the key to
its default when `get_config` currently yields `None`. -/
def ensure_key (st : Store) (kv : String × Option Int) : Store :=
  if get_config st kv.1 = none then set_config st kv.1 kv.2 else st

/-- Embedding of `ensure_config_keys`: the loop over `default_keys`. -/
def ensure_config_keys (st : Store) : Store :=
  List.foldl ensure_key st default_keys

/-- N-fold repetition of `ensure_config_keys`, as run on every startup
and on every `on_ready` event. -/
def ensure_iter : Nat → Store → Store
  | 0, st => st
  | n + 1, st => ensure_config_keys (ensure_iter n st)

/-- Whether one embed carries the staff marker: the source comparison
`embed.color.value == mod_color`, where `mod_color` may itself be unset.
This is the marker predicate on an embed, ignoring the access crash. -/
def embed_matches (mod_color : Option Nat) (e : Embed) : Bool :=
  match e.color with
  | some v => mod_color == some v
  | none => false

/-- Whether a message carries the staff marker on some embed. -/
def is_staff_marked (mod_color : Option Nat) (m : Message) : Bool :=
  m.embeds.any (embed_matches mod_color)

/-- The inner loop of `has_mod_replied` over one message's embeds:
`some true` on the first embed whose colour equals `mod_color`,
`some false` when the embeds are exhausted, and `none` when an embed
without a colour is reached first (`embed.color.value` raises). -/
def embeds_scan (mod_color : Option Nat) : List Embed → Option Bool
  | [] => some false
  | e :: rest =>
    match e.color with
    | none => none
    | some v => if mod_color = some v then some true else embeds_scan mod_color rest

/-- Embedding of `has_mod_replied`: scan the channel history, newest
first, returning `some true` on the first staff-coloured embed,
`some false` when the history is exhausted, and `none` when the scan
raises on a colourless embed before any match. -/
def has_mod_replied (mod_color : Option Nat) : List Message → Option Bool
  | [] => some false
  | m :: rest =>
    match embeds_scan mod_color m.embeds with
    | none => none
    | some true => some true
    | some false => has_mod_replied mod_color rest

/-- The host chat platform as seen by `move_channel`: which category ids
`bot.get_channel` resolves to an existing (truthy) category, and whether
`channel.edit` raises. -/
structure Host where
  categories : List Int
  editFails : Bool
  deriving DecidableEq

/-- Observable outcome of one `move_channel` call that did not itself
raise: the channel was edited, nothing was attempted, or the edit raised
and the exception was caught and printed. -/
inductive MoveOutcome
  | moved
  | noop
  | failedCaught
  deriving DecidableEq

/-- Embedding of `move_channel`.  The first statement is
`category_id = int(category_id)`, which raises `TypeError` when the
argument is Python `None` — modelled as result `none`.  Otherwise the
edit is attempted only when the target resolves to an existing category
and the channel is not already in it; a raising edit is caught.  The
second component counts `channel.edit` attempts. -/
def move_channel (host : Host) (current_category : Option Int) (category_id : Option Int) :
    Option (MoveOutcome × Nat) :=
  match category_id with
  | none => none
  | some cid =>
    if cid ∈ host.categories ∧ current_category ≠ some cid then
      if host.editFails then some (MoveOutcome.failedCaught, 1) else some (MoveOutcome.moved, 1)
    else some (MoveOutcome.noop, 0)

/-- The routing decision of a reply event: which target, if any,
`move_channel` is invoked with. -/
inductive Decision
  | noop
  | moveTo (target : Int)
  deriving DecidableEq

/-- The `category_id` value computed by the branches of
`on_thread_reply`: the waiting-user category for a staff sender, the
waiting-staff category for a user sender when staff has already replied,
and `None` otherwise. -/
def reply_target (st : Store) (mhr : Bool) (from_mod : Bool) : Option Int :=
  if from_mod then get_config st waitingUserKey
  else if mhr then get_config st waitingStaffKey
  else none

/-- The final `if category_id:` guard of `on_thread_reply` turned into a
decision: a set (hence truthy) target yields a move. -/
def reply_decision (st : Store) (mhr : Bool) (from_mod : Bool) : Decision :=
  match reply_target st mhr from_mod with
  | some c => Decision.moveTo c
  | none => Decision.noop

/-- Embedding of the `on_thread_reply` listener.  Exactly as in the
source, `has_mod_replied` runs first, before the recruitment check, so a
raising scan (`none`) aborts every event; then recruitment channels
short-circuit to no decision, and otherwise the branch target decides. -/
def on_thread_reply (st : Store) (mod_color : Option Nat) (current_category : Option Int)
    (history : List Message) (from_mod : Bool) : Option Decision :=
  match has_mod_replied mod_color history with
  | none => none
  | some mhr =>
    match get_config st recruitmentKey with
    | some r =>
      if current_category = some r then some Decision.noop
      else some (reply_decision st mhr from_mod)
    | none => some (reply_decision st mhr from_mod)

/-- The whole event workflow: the routing decision followed by the
`move_channel` call it issues, if any.  `none` models an uncaught
exception escaping the listener; `some none` a completed event that
issued no move; `some (some r)` a completed event whose issued move
finished with outcome `r`. -/
def handle_thread_reply (host : Host) (st : Store) (mod_color : Option Nat)
    (current_category : Option Int) (history : List Message) (from_mod : Bool) :
    Option (Option (MoveOutcome × Nat)) :=
  match on_thread_reply st mod_color current_category history from_mod with
  | none => none
  | some Decision.noop => some none
  | some (Decision.moveTo c) =>
    match move_channel host current_category (some c) with
    | none => none
    | some r => some (some r)

/-! ### Store lemmas -/

theorem get_config_set_self (st : Store) (k : String) (v : Option Int) :
    get_config (set_config st k v) k = v := by
  induction st with
  | nil => simp [set_config, get_config]
  | cons p rest ih =>
    by_cases h : p.1 = k
    · simp [set_config, h, get_config]
    · simp [set_config, h, get_config, ih]

theorem get_config_set_other (st : Store) (k kk : String) (v : Option Int) (h : k ≠ kk) :
    get_config (set_config st k v) kk = get_config st kk := by
  induction st with
  | nil => simp [set_config, get_config, h]
  | cons p rest ih =>
    by_cases hp : p.1 = k
    · simp [set_config, hp, get_config, h]
    · simp [set_config, hp, get_config, ih]

theorem hasKey_set (st : Store) (k kk : String) (v : Option Int) :
    hasKey (set_config st k v) kk = ((k == kk) || hasKey st kk) := by
  induction st with
  | nil => simp [set_config, hasKey]
  | cons p rest ih =>
    by_cases hp : p.1 = k
    · simp only [set_config, if_pos hp, hasKey, hp]
      cases h : (k == kk) <;> simp [h]
    · simp only [set_config, if_neg hp, hasKey, ih]
      cases h1 : (p.1 == kk) <;> cases h2 : (k == kk) <;> simp [h1, h2]

theorem hasKey_of_get_config_ne_none (st : Store) (k : String)
    (h : get_config st k ≠ none) : hasKey st k = true := by
  induction st with
  | nil => simp [get_config] at h
  | cons p rest ih =>
    by_cases hp : p.1 = k
    · simp [hasKey, hp]
    · simp only [get_config, if_neg hp] at h
      simp [hasKey, ih h]

theorem get_config_ensure_key (st : Store) (kx kk : String) :
    get_config (ensure_key st (kx, none)) kk = get_config st kk := by
  unfold ensure_key
  by_cases hg : get_config st kx = none
  · simp only [if_pos hg]
    by_cases hk : kx = kk
    · subst hk; rw [get_config_set_self, hg]
    · exact get_config_set_other st kx kk none hk
  · simp [hg]

theorem hasKey_ensure_key (st : Store) (kx kk : String) :
    hasKey (ensure_key st (kx, none)) kk = ((kx == kk) || hasKey st kk) := by
  unfold ensure_key
  by_cases hg : get_config st kx = none
  · simp [hg, hasKey_set]
  · simp only [if_neg hg]
    by_cases hk : kx = kk
    · subst hk
      simp [hasKey_of_get_config_ne_none st kx hg]
    · simp [beq_eq_false_iff_ne.mpr hk]

/-- Whether a key is one of the four keys initialised by
`ensure_config_keys`. -/
def isDefaultKey (k : String) : Bool :=
  (waitingUserKey == k) || (waitingStaffKey == k) || (closingKey == k) || (recruitmentKey == k)

theorem get_config_ensure (st : Store) (k : String) :
    get_config (ensure_config_keys st) k = get_config st k := by
  show get_config
      (ensure_key (ensure_key (ensure_key (ensure_key st (waitingUserKey, none))
        (waitingStaffKey, none)) (closingKey, none)) (recruitmentKey, none)) k = get_config st k
  rw [get_config_ensure_key, get_config_ensure_key, get_config_ensure_key, get_config_ensure_key]

theorem hasKey_ensure (st : Store) (k : String) :
    hasKey (ensure_config_keys st) k = (isDefaultKey k || hasKey st k) := by
  show hasKey
      (ensure_key (ensure_key (ensure_key (ensure_key st (waitingUserKey, none))
        (waitingStaffKey, none)) (closingKey, none)) (recruitmentKey, none)) k = _
  rw [hasKey_ensure_key, hasKey_ensure_key, hasKey_ensure_key, hasKey_ensure_key]
  unfold isDefaultKey
  cases h1 : (waitingUserKey == k) <;> cases h2 : (waitingStaffKey == k) <;>
    cases h3 : (closingKey == k) <;> cases h4 : (recruitmentKey == k) <;>
      simp [h1, h2, h3, h4]

theorem get_config_ensure_iter (n : Nat) (st : Store) (k : String) :
    get_config (ensure_iter n st) k = get_config st k := by
  induction n with
  | zero => rfl
  | succ n ih => rw [ensure_iter, get_config_ensure, ih]

theorem hasKey_ensure_iter_succ (n : Nat) (st : Store) (k : String) :
    hasKey (ensure_iter (n + 1) st) k = hasKey (ensure_config_keys st) k := by
  induction n with
  | zero => rfl
  | succ n ih =>
    show hasKey (ensure_config_keys (ensure_iter (n + 1) st)) k = _
    rw [hasKey_ensure, ih, hasKey_ensure]
    cases h : isDefaultKey k <;> simp [h]

/-! ### Scan lemmas -/

theorem embeds_scan_eq_any (mc : Option Nat) (es : List Embed) (b : Bool)
    (h : embeds_scan mc es = some b) : b = es.any (embed_matches mc) := by
  induction es with
  | nil =>
    simp only [embeds_scan, Option.some.injEq] at h
    simp [← h]
  | cons e rest ih =>
    cases hc : e.color with
    | none => simp [embeds_scan, hc] at h
    | some v =>
      by_cases hv : mc = some v
      · simp only [embeds_scan, hc, if_pos hv, Option.some.injEq] at h
        simp [← h, List.any_cons, embed_matches, hc, hv]
      · simp only [embeds_scan, hc, if_neg hv] at h
        simp [List.any_cons, embed_matches, hc, beq_eq_false_iff_ne.mpr hv, ih h]

theorem has_mod_replied_eq_any (mc : Option Nat) :
    ∀ (h : List Message) (b : Bool), has_mod_replied mc h = some b →
      b = h.any (is_staff_marked mc) := by
  intro h
  induction h with
  | nil =>
    intro b hb
    simp only [has_mod_replied, Option.some.injEq] at hb
    simp [← hb]
  | cons m rest ih =>
    intro b hb
    cases hs : embeds_scan mc m.embeds with
    | none => simp [has_mod_replied, hs] at hb
    | some bb =>
      cases bb with
      | true =>
        simp only [has_mod_replied, hs, Option.some.injEq] at hb
        have hm : is_staff_marked mc m = true := by
          unfold is_staff_marked
          exact (embeds_scan_eq_any mc m.embeds true hs).symm
        simp [← hb, List.any_cons, hm]
      | false =>
        simp only [has_mod_replied, hs] at hb
        have hm : is_staff_marked mc m = false := by
          unfold is_staff_marked
          exact (embeds_scan_eq_any mc m.embeds false hs).symm
        simp [List.any_cons, hm, ih b hb]

theorem has_mod_replied_append_true (mc : Option Nat) :
    ∀ (h1 h2 : List Message), has_mod_replied mc h1 = some true →
      has_mod_replied mc (h1 ++ h2) = some true := by
  intro h1
  induction h1 with
  | nil => intro h2 hb; simp [has_mod_replied] at hb
  | cons m rest ih =>
    intro h2 hb
    cases hs : embeds_scan mc m.embeds with
    | none => simp [has_mod_replied, hs] at hb
    | some bb =>
      cases bb with
      | true => simp [has_mod_replied, hs]
      | false =>
        simp only [has_mod_replied, hs] at hb
        simp only [List.cons_append, has_mod_replied, hs]
        exact ih h2 hb

theorem has_mod_replied_crash_after (mc : Option Nat) :
    ∀ (pre : List Message) (m : Message) (rest : List Message),
      has_mod_replied mc pre = some false → embeds_scan mc m.embeds = none →
      has_mod_replied mc (pre ++ m :: rest) = none := by
  intro pre
  induction pre with
  | nil => intro m rest _ h2; simp [has_mod_replied, h2]
  | cons p ps ih =>
    intro m rest h1 h2
    cases hs : embeds_scan mc p.embeds with
    | none => simp [has_mod_replied, hs] at h1
    | some bb =>
      cases bb with
      | true => simp [has_mod_replied, hs] at h1
      | false =>
        simp only [has_mod_replied, hs] at h1
        simp only [List.cons_append, has_mod_replied, hs]
        exact ih m rest h1 h2

/-! ### Event-level helper lemmas -/

theorem move_channel_some_isSome (host : Host) (cur : Option Int) (c : Int) :
    (move_channel host cur (some c)).isSome = true := by
  by_cases h1 : c ∈ host.categories ∧ cur ≠ some c
  · by_cases h2 : host.editFails <;> simp [move_channel, h1, h2]
  · simp [move_channel, h1]

theorem on_thread_reply_isSome (st : Store) (mc : Option Nat) (cur : Option Int)
    (hist : List Message) (fm : Bool) (b : Bool)
    (hs : has_mod_replied mc hist = some b) :
    (on_thread_reply st mc cur hist fm).isSome = true := by
  cases hrec : get_config st recruitmentKey with
  | none => simp [on_thread_reply, hs, hrec]
  | some r =>
    by_cases hc : cur = some r <;> simp [on_thread_reply, hs, hrec, hc]

/-! ### Claim C1 -/

/-- Claim C1 (amended): for a reply event on a channel whose current
category equals the set recruitment category, no move is ever issued,
for every sender role and history; and on every history on which the
initial `has_mod_replied` scan completes without raising, the decision
is `noop`.  On a history where the scan raises, the event aborts with
the uncaught exception (result `none`) — still without a move. -/
theorem C1_recruitment_no_move (st : Store) (mc : Option Nat) (cur : Option Int)
    (hist : List Message) (fm : Bool) (r : Int)
    (hr : get_config st recruitmentKey = some r) (hc : cur = some r) :
    (on_thread_reply st mc cur hist fm = none ∨
      on_thread_reply st mc cur hist fm = some Decision.noop) ∧
    ((has_mod_replied mc hist).isSome = true →
      on_thread_reply st mc cur hist fm = some Decision.noop) := by
  cases hs : has_mod_replied mc hist with
  | none => simp [on_thread_reply, hs]
  | some mhr => simp [on_thread_reply, hs, hr, hc]

/-- Witness for C1: a concrete recruitment-channel staff event with a
completing (empty) history decides `noop` and issues no move. -/
theorem C1_recruitment_no_move_witness :
    on_thread_reply [(recruitmentKey, some 7)] none (some 7) [] true = some Decision.noop :=
  (C1_recruitment_no_move [(recruitmentKey, some 7)] none (some 7) [] true 7
    (by decide) rfl).2 (by decide)

/-- Counterexample to C1 as stated: on a recruitment channel whose
history holds a message with a colourless embed, the unconditional
initial scan raises, so the event aborts with an uncaught exception
rather than completing with decision `noop` — the claim's "for every
message history" fails (no move is issued, but the decision is not
`noop`). -/
theorem C1_crash_counterexample :
    get_config [(recruitmentKey, some 7)] recruitmentKey = some 7 ∧
    on_thread_reply [(recruitmentKey, some 7)] (some 3) (some 7)
      [Message.mk [Embed.mk none]] false = none ∧
    on_thread_reply [(recruitmentKey, some 7)] (some 3) (some 7)
      [Message.mk [Embed.mk none]] false ≠ some Decision.noop := by
  exact ⟨by decide, by decide, by decide⟩

/-! ### Claim C2 -/

/-- Claim C2 (amended): for a staff reply event on a non-recruitment
channel with the waiting-user category set and the channel not already
in it, the decision is `moveTo` that category — provided the initial
`has_mod_replied` scan completes; a raising scan aborts the event before
any decision. -/
theorem C2_staff_moves_to_waiting_user (st : Store) (mc : Option Nat) (cur : Option Int)
    (hist : List Message) (w : Int) (b : Bool)
    (hscan : has_mod_replied mc hist = some b)
    (hnr : ∀ r : Int, get_config st recruitmentKey = some r → cur ≠ some r)
    (hw : get_config st waitingUserKey = some w)
    (hcur : cur ≠ some w) :
    on_thread_reply st mc cur hist true = some (Decision.moveTo w) := by
  cases hrec : get_config st recruitmentKey with
  | none => simp [on_thread_reply, hscan, hrec, reply_decision, reply_target, hw]
  | some r =>
    have hne : cur ≠ some r := hnr r hrec
    simp [on_thread_reply, hscan, hrec, hne, reply_decision, reply_target, hw]

/-- Witness for C2: a concrete staff event with a clean history on a
non-recruitment channel moves to the configured waiting-user category. -/
theorem C2_staff_moves_to_waiting_user_witness :
    on_thread_reply [(waitingUserKey, some 10)] none (some 5) [] true =
      some (Decision.moveTo 10) := by
  apply C2_staff_moves_to_waiting_user [(waitingUserKey, some 10)] none (some 5) [] 10 false
  · decide
  · intro r hr
    have hn : get_config [(waitingUserKey, some 10)] recruitmentKey = none := by decide
    rw [hn] at hr
    exact Option.noConfusion hr
  · decide
  · decide

/-- Counterexample to C2 as stated: the same staff event on a history
whose first message carries a colourless embed aborts in the initial
scan, so no `moveTo` decision is produced. -/
theorem C2_crash_counterexample :
    get_config [(waitingUserKey, some 10)] waitingUserKey = some 10 ∧
    get_config [(waitingUserKey, some 10)] recruitmentKey = none ∧
    on_thread_reply [(waitingUserKey, some 10)] (some 3) (some 5)
      [Message.mk [Embed.mk none]] true = none ∧
    on_thread_reply [(waitingUserKey, some 10)] (some 3) (some 5)
      [Message.mk [Embed.mk none]] true ≠ some (Decision.moveTo 10) := by
  exact ⟨by decide, by decide, by decide, by decide⟩

/-! ### Claim C3 -/

/-- Claim C3 (amended): for a user reply event on a non-recruitment
channel, provided the history scan completes: if it reports a
staff-marked message and the waiting-staff category is set the decision
is `moveTo` that category, and if it reports none the decision is
`noop`; the completed scan's report coincides with the existence of a
staff-marked message in the history.  On a history where the scan raises
(a colourless embed before any match), the event aborts before deciding,
even when a staff-marked message exists later in the history. -/
theorem C3_user_branch (st : Store) (mc : Option Nat) (cur : Option Int)
    (hist : List Message) (w : Int)
    (hnr : ∀ r : Int, get_config st recruitmentKey = some r → cur ≠ some r) :
    (has_mod_replied mc hist = some true →
      get_config st waitingStaffKey = some w →
      on_thread_reply st mc cur hist false = some (Decision.moveTo w)) ∧
    (has_mod_replied mc hist = some false →
      on_thread_reply st mc cur hist false = some Decision.noop) ∧
    (∀ b : Bool, has_mod_replied mc hist = some b →
      b = hist.any (is_staff_marked mc)) := by
  refine ⟨?_, ?_, ?_⟩
  · intro hs hw
    cases hrec : get_config st recruitmentKey with
    | none => simp [on_thread_reply, hs, hrec, reply_decision, reply_target, hw]
    | some r =>
      have hne : cur ≠ some r := hnr r hrec
      simp [on_thread_reply, hs, hrec, hne, reply_decision, reply_target, hw]
  · intro hs
    cases hrec : get_config st recruitmentKey with
    | none => simp [on_thread_reply, hs, hrec, reply_decision, reply_target]
    | some r =>
      have hne : cur ≠ some r := hnr r hrec
      simp [on_thread_reply, hs, hrec, hne, reply_decision, reply_target]
  · intro b hb
    exact has_mod_replied_eq_any mc hist b hb

/-- Witness for C3: a concrete user event whose history holds a
staff-coloured embed moves to the configured waiting-staff category. -/
theorem C3_user_branch_witness :
    on_thread_reply [(waitingStaffKey, some 11)] (some 3) (some 5)
      [Message.mk [Embed.mk (some 3)]] false = some (Decision.moveTo 11) := by
  have h := C3_user_branch [(waitingStaffKey, some 11)] (some 3) (some 5)
    [Message.mk [Embed.mk (some 3)]] 11 ?_
  · exact h.1 (by decide) (by decide)
  · intro r hr
    have hn : get_config [(waitingStaffKey, some 11)] recruitmentKey = none := by decide
    rw [hn] at hr
    exact Option.noConfusion hr

/-- Counterexample to C3 as stated: the history holds a staff-marked
message, the waiting-staff category is set and the channel is not a
recruitment channel, yet the event aborts (the scan raises on the
colourless embed it reaches first) instead of deciding `moveTo`. -/
theorem C3_crash_counterexample :
    List.any [Message.mk [Embed.mk none], Message.mk [Embed.mk (some 3)]]
      (is_staff_marked (some 3)) = true ∧
    get_config [(waitingStaffKey, some 11)] waitingStaffKey = some 11 ∧
    get_config [(waitingStaffKey, some 11)] recruitmentKey = none ∧
    on_thread_reply [(waitingStaffKey, some 11)] (some 3) (some 5)
      [Message.mk [Embed.mk none], Message.mk [Embed.mk (some 3)]] false = none ∧
    on_thread_reply [(waitingStaffKey, some 11)] (some 3) (some 5)
      [Message.mk [Embed.mk none], Message.mk [Embed.mk (some 3)]] false ≠
      some (Decision.moveTo 11) := by
  exact ⟨by decide, by decide, by decide, by decide, by decide⟩

/-! ### Claim C4 -/

/-- Claim C4 (amended): `move_channel` completes as a no-op, with no
edit attempted, when the target id resolves to no existing category or
when the channel's current category already equals the target — in
particular a second call with the now-current target is a no-op.  It is
not total on an absent target id: `int(None)` raises `TypeError`
(result `none`); its two callers guard with `if category_id` /
`if category_id is not None` and never pass an unset id. -/
theorem C4_move_channel_noop (host : Host) (cur : Option Int) (cid : Int) :
    (cid ∉ host.categories →
      move_channel host cur (some cid) = some (MoveOutcome.noop, 0)) ∧
    move_channel host (some cid) (some cid) = some (MoveOutcome.noop, 0) ∧
    move_channel host cur none = none := by
  refine ⟨?_, ?_, rfl⟩
  · intro h
    simp [move_channel, h]
  · simp [move_channel]

/-- Witness for C4: with a host owning only category 5, moving a channel
currently in 5 towards the nonexistent category 9 is a no-op, and moving
it towards its own category 5 is a no-op. -/
theorem C4_move_channel_noop_witness :
    move_channel (Host.mk [5] false) (some 5) (some 9) = some (MoveOutcome.noop, 0) ∧
    move_channel (Host.mk [5] false) (some 5) (some 5) = some (MoveOutcome.noop, 0) :=
  ⟨(C4_move_channel_noop (Host.mk [5] false) (some 5) 9).1 (by decide),
   (C4_move_channel_noop (Host.mk [5] false) (some 5) 5).2.1⟩

/-- Counterexample to C4 as stated: `move_channel` with an absent target
id raises (`int(None)` is `TypeError`) instead of completing as a no-op,
so it is not total on the absent/unset case. -/
theorem C4_none_counterexample :
    move_channel (Host.mk [3] false) (some 5) none = none ∧
    move_channel (Host.mk [3] false) (some 5) none ≠ some (MoveOutcome.noop, 0) := by
  exact ⟨rfl, by decide⟩

/-! ### Claim C5 -/

/-- Claim C5 (amended): when the branch's resolved target category is
unset, the decision is `noop` and the unset configuration causes no
error — provided the initial history scan completes; on a history where
the scan raises, the event aborts with that unrelated exception. -/
theorem C5_unset_target_noop (st : Store) (mc : Option Nat) (cur : Option Int)
    (hist : List Message) (b : Bool)
    (hscan : has_mod_replied mc hist = some b)
    (hnr : ∀ r : Int, get_config st recruitmentKey = some r → cur ≠ some r) :
    (get_config st waitingUserKey = none →
      on_thread_reply st mc cur hist true = some Decision.noop) ∧
    (get_config st waitingStaffKey = none →
      on_thread_reply st mc cur hist false = some Decision.noop) := by
  constructor
  · intro hu
    cases hrec : get_config st recruitmentKey with
    | none => simp [on_thread_reply, hscan, hrec, reply_decision, reply_target, hu]
    | some r =>
      have hne : cur ≠ some r := hnr r hrec
      simp [on_thread_reply, hscan, hrec, hne, reply_decision, reply_target, hu]
  · intro hu
    cases hrec : get_config st recruitmentKey with
    | none => cases b <;> simp [on_thread_reply, hscan, hrec, reply_decision, reply_target, hu]
    | some r =>
      have hne : cur ≠ some r := hnr r hrec
      cases b <;> simp [on_thread_reply, hscan, hrec, hne, reply_decision, reply_target, hu]

/-- Witness for C5: on an empty store, a staff event and a user event
with a clean history both complete silently with decision `noop`. -/
theorem C5_unset_target_noop_witness :
    on_thread_reply [] none (some 5) [] true = some Decision.noop ∧
    on_thread_reply [] none (some 5) [] false = some Decision.noop := by
  have h := C5_unset_target_noop [] none (some 5) [] false (by decide) ?_
  · exact ⟨h.1 (by decide), h.2 (by decide)⟩
  · intro r hr
    have hn : get_config [] recruitmentKey = none := by decide
    rw [hn] at hr
    exact Option.noConfusion hr

/-- Counterexample to C5 as stated: a staff event with the waiting-user
category unset but a history holding a colourless embed aborts with an
uncaught exception from the scan, so the event does not complete
silently with `noop`. -/
theorem C5_crash_counterexample :
    get_config [] waitingUserKey = none ∧
    on_thread_reply [] (some 3) (some 5) [Message.mk [Embed.mk none]] true = none ∧
    on_thread_reply [] (some 3) (some 5) [Message.mk [Embed.mk none]] true ≠
      some Decision.noop := by
  exact ⟨by decide, by decide, by decide⟩

/-! ### Claim C6 -/

/-- Claim C6: when the host rejects the edit, `move_channel` catches the
failure, reports it (outcome `failedCaught`), attempts the edit exactly
once (no retry) and returns without propagating; and the surrounding
reply workflow completes whenever the event reaches it (the history scan
completed), a failed move never aborting it. -/
theorem C6_failure_contained (host : Host) (st : Store) (mc : Option Nat)
    (cur : Option Int) (hist : List Message) (fm : Bool) (cid : Int) (b : Bool)
    (hf : host.editFails = true) (hin : cid ∈ host.categories) (hne : cur ≠ some cid)
    (hscan : has_mod_replied mc hist = some b) :
    move_channel host cur (some cid) = some (MoveOutcome.failedCaught, 1) ∧
    (handle_thread_reply host st mc cur hist fm).isSome = true := by
  constructor
  · simp [move_channel, hin, hne, hf]
  · have h1 := on_thread_reply_isSome st mc cur hist fm b hscan
    cases hd : on_thread_reply st mc cur hist fm with
    | none => rw [hd] at h1; simp at h1
    | some d =>
      cases d with
      | noop => simp [handle_thread_reply, hd]
      | moveTo c =>
        have h2 := move_channel_some_isSome host cur c
        cases hm : move_channel host cur (some c) with
        | none => rw [hm] at h2; simp at h2
        | some r => simp [handle_thread_reply, hd, hm]

/-- Witness for C6: a host that rejects every edit makes the concrete
move fail with a caught, reported, single-attempt outcome, and the
surrounding event still completes. -/
theorem C6_failure_contained_witness :
    move_channel (Host.mk [9] true) (some 5) (some 9) =
      some (MoveOutcome.failedCaught, 1) ∧
    (handle_thread_reply (Host.mk [9] true) [] none (some 5) [] true).isSome = true :=
  C6_failure_contained (Host.mk [9] true) [] none (some 5) [] true 9 false
    (by decide) (by decide) (by decide) (by decide)

/-! ### Claim C7 -/

/-- Claim C7: whenever `has_mod_replied` returns a boolean, that boolean
equals the existence of a staff-marked message in the scanned history
(`false` exactly when the history was exhausted with no match), and a
returned `true` is decided by the already-scanned prefix: extending the
history beyond the first match never changes the result. -/
theorem C7_has_mod_replied_spec (mc : Option Nat) (h h2 : List Message) (b : Bool)
    (hs : has_mod_replied mc h = some b) :
    b = h.any (is_staff_marked mc) ∧
    (b = true → has_mod_replied mc (h ++ h2) = some true) :=
  ⟨has_mod_replied_eq_any mc h b hs,
   fun hb => has_mod_replied_append_true mc h h2 (hb ▸ hs)⟩

/-- Witness for C7: a concrete staff-coloured history returns `true`,
which coincides with the existential check and is preserved under
appending further (even colourless) messages. -/
theorem C7_has_mod_replied_spec_witness :
    (true = List.any [Message.mk [Embed.mk (some 2)]] (is_staff_marked (some 2))) ∧
    (true = true → has_mod_replied (some 2)
      ([Message.mk [Embed.mk (some 2)]] ++ [Message.mk [Embed.mk none]]) = some true) :=
  C7_has_mod_replied_spec (some 2) [Message.mk [Embed.mk (some 2)]]
    [Message.mk [Embed.mk none]] true (by decide)

/-! ### Claim C8 -/

/-- Claim C8 (amended): the decision outcomes follow the stated order —
a set recruitment category matching the channel's current category
yields `noop` whenever the event completes — but the `has_mod_replied`
history scan is executed unconditionally before the recruitment check,
for every event including recruitment-channel and staff-sender events:
a raising scan aborts all of them. -/
theorem C8_scan_unconditional (st : Store) (mc : Option Nat) (cur : Option Int)
    (hist : List Message) (fm : Bool) :
    (has_mod_replied mc hist = none → on_thread_reply st mc cur hist fm = none) ∧
    (∀ (b : Bool) (r : Int), has_mod_replied mc hist = some b →
      get_config st recruitmentKey = some r → cur = some r →
      on_thread_reply st mc cur hist fm = some Decision.noop) := by
  constructor
  · intro hs
    simp [on_thread_reply, hs]
  · intro b r hs hr hc
    simp [on_thread_reply, hs, hr, hc]

/-- Witness for C8: a staff-sender event on a recruitment channel with a
crashing history aborts, observing that the scan ran before the
recruitment short-circuit. -/
theorem C8_scan_unconditional_witness :
    on_thread_reply [(recruitmentKey, some 9)] (some 3) (some 9)
      [Message.mk [Embed.mk none]] true = none :=
  (C8_scan_unconditional [(recruitmentKey, some 9)] (some 3) (some 9)
    [Message.mk [Embed.mk none]] true).1 (by decide)

/-- Counterexample to C8 as stated: on a recruitment-channel user event
(and likewise a staff event) the history scan is still performed — its
raising on a colourless embed makes the whole event abort (`none`),
which could not happen had step 1 short-circuited before the scan. -/
theorem C8_scan_counterexample :
    get_config [(recruitmentKey, some 9)] recruitmentKey = some 9 ∧
    has_mod_replied (some 3) [Message.mk [Embed.mk none]] = none ∧
    on_thread_reply [(recruitmentKey, some 9)] (some 3) (some 9)
      [Message.mk [Embed.mk none]] false = none ∧
    on_thread_reply [(recruitmentKey, some 9)] (some 3) (some 9)
      [Message.mk [Embed.mk none]] false ≠ some Decision.noop := by
  exact ⟨by decide, rfl, by decide, by decide⟩

/-! ### Claim C9 -/

/-- Claim C9: `ensure_config_keys` is idempotent — for every starting
store and every N ≥ 1, running it N times leaves the same key set and
the same observable configuration values (under `get_config`) as running
it once, so it is safe on every startup. -/
theorem C9_ensure_idempotent (st : Store) (n : Nat) (k : String) (hn : 1 ≤ n) :
    get_config (ensure_iter n st) k = get_config (ensure_config_keys st) k ∧
    hasKey (ensure_iter n st) k = hasKey (ensure_config_keys st) k := by
  obtain ⟨m, rfl⟩ : ∃ m, n = m + 1 := ⟨n - 1, by omega⟩
  constructor
  · rw [get_config_ensure_iter, get_config_ensure]
  · exact hasKey_ensure_iter_succ m st k

/-- Witness for C9: three runs on a concrete store agree with one run on
the recruitment key, in value and in presence. -/
theorem C9_ensure_idempotent_witness :
    get_config (ensure_iter 3 [(closingKey, some 4)]) recruitmentKey =
      get_config (ensure_config_keys [(closingKey, some 4)]) recruitmentKey ∧
    hasKey (ensure_iter 3 [(closingKey, some 4)]) recruitmentKey =
      hasKey (ensure_config_keys [(closingKey, some 4)]) recruitmentKey :=
  C9_ensure_idempotent [(closingKey, some 4)] 3 recruitmentKey (by decide)

/-! ### Claim C10 -/

/-- Claim C10: `has_mod_replied` is not total — a colourless embed
reached before any staff-marked embed makes the scan raise rather than
be skipped: after any cleanly-scanned matchless prefix, a message whose
embed scan raises aborts the whole scan regardless of the remaining
history, and within one message a leading colourless embed aborts the
embed scan regardless of the remaining embeds. -/
theorem C10_scan_not_total (mc : Option Nat) (pre : List Message) (m : Message)
    (rest : List Message) (es : List Embed)
    (h1 : has_mod_replied mc pre = some false)
    (h2 : embeds_scan mc m.embeds = none) :
    has_mod_replied mc (pre ++ m :: rest) = none ∧
    embeds_scan mc (Embed.mk none :: es) = none :=
  ⟨has_mod_replied_crash_after mc pre m rest h1 h2, rfl⟩

/-- Witness for C10: a concrete history whose second message carries a
colourless embed makes the scan raise even though a staff-coloured
message follows. -/
theorem C10_scan_not_total_witness :
    has_mod_replied (some 3)
      ([Message.mk [Embed.mk (some 1)]] ++
        Message.mk [Embed.mk none] :: [Message.mk [Embed.mk (some 3)]]) = none ∧
    embeds_scan (some 3) (Embed.mk none :: [Embed.mk (some 1)]) = none :=
  C10_scan_not_total (some 3) [Message.mk [Embed.mk (some 1)]]
    (Message.mk [Embed.mk none]) [Message.mk [Embed.mk (some 3)]]
    [Embed.mk (some 1)] (by decide) (by decide)

end AutoMove
